import Mathlib

set_option maxRecDepth 40000

/-!
Shallow embedding of the PDFDB-Ask-RAG pipeline.

The embedding follows the repository's code:
* `database.py` — `execute_query` over a connection pool; modelled by
  `execute_query` below, with the pool state and the query's outcome as
  explicit parameters.
* `rag.py` — the `OrganizationSystemChat` orchestrator: query construction
  (`metadata_query`, `data_query`, `relationship_query`, `insight_query`),
  the per-table fetch (`fetch_table_data`), the relationship fetch
  (`fetch_relationships`), database and document ingestion, `ask`,
  `generate_insights`, `_format_response` and `clear`.

External collaborators (psycopg2, Chroma, the retriever, the language model,
Python repr) are modelled as explicit function or outcome parameters of type
`Except PyErr _`: an `Except.error` value stands for a Python exception
raised by that call, an `Except.ok` value for its normal result.
-/

namespace PDFDB

/-- Kind of a Python exception observed by the code. `operational` is
psycopg2's `OperationalError` (the only kind `execute_query` catches);
`other` is every other exception class, e.g. `ProgrammingError`. -/
inductive ErrKind where
  | operational
  | other
deriving DecidableEq, Repr

/-- A Python exception value: its kind and its message (`str(e)`). -/
structure PyErr where
  kind : ErrKind
  msg : String
deriving DecidableEq, Repr

deriving instance DecidableEq for Except

/-- A row as the code observes it: the stringified cells (`str(cell)`). -/
abbrev Row := List String

/-- A batch of rows, as yielded by `execute_query`. -/
abbrev Batch := List Row

/-- Python `str` whitespace, as removed by `str.strip()`. -/
def pyIsSpace (c : Char) : Bool :=
  c = ' ' || c = '\t' || c = '\n' || c = '\r' || c = '\x0b' || c = '\x0c'

/-- Python `str.strip()` on the character list. -/
def pyStripChars (cs : List Char) : List Char :=
  ((cs.dropWhile pyIsSpace).reverse.dropWhile pyIsSpace).reverse

/-- Python `str.strip()`. -/
def pyStrip (s : String) : String := ⟨pyStripChars s.data⟩

/-- Python `str.split("\n")` on the character list: always non-empty,
`[""] ` for the empty string. -/
def splitLinesChars : List Char → List (List Char)
  | [] => [[]]
  | c :: cs =>
    match splitLinesChars cs with
    | [] => [[]]
    | l :: ls => if c = '\n' then [] :: l :: ls else (c :: l) :: ls

/-- The first element of Python `s.split("\n")`. -/
def firstLine (s : String) : String := ⟨(splitLinesChars s.data).headD []⟩

/-- Python substring containment `needle in hay` on character lists. -/
def listContains (needle : List Char) : List Char → Bool
  | [] => needle.isEmpty
  | c :: cs => needle.isPrefixOf (c :: cs) || listContains needle cs

/-- Python substring containment `needle in hay`. -/
def containsSub (needle hay : String) : Bool := listContains needle.data hay.data

/-- Python `s.startswith(pre)` / the spec's "begins with". -/
def pyStartsWith (s pre : String) : Bool := pre.data.isPrefixOf s.data

/-- `rag.Document`: page content plus (string-valued) metadata, defaulting
to the empty mapping, as in the `Document` class of `rag.py`. -/
structure Document where
  page_content : String
  metadata : List (String × String)
deriving DecidableEq, Repr

/-!
## database.py
-/

/-- Observable outcome of one `database.execute_query` call: the batches the
generator yielded, the exception (if any) escaping to the caller, and the
resource bookkeeping of `get_connection` / the `finally` block. -/
structure ExecOutcome where
  batches : List Batch
  raised : Option PyErr
  connObtained : Bool
  connReleased : Bool
  cursorClosed : Bool
deriving DecidableEq, Repr

/-- `database.execute_query`, with the environment explicit:
`poolInitialized` — whether `db_pool` is not `None`; `connAvailable` —
whether `db_pool.getconn()` returns a connection (rather than raising
`OperationalError` or returning a falsy value); `queryOutcome` — the result
of `cursor.execute` plus the `fetchmany` loop: either the full batch list or
the exception the query raises.  The source catches only `OperationalError`
and logs it; any other exception propagates, with `cursor.close()` and
`release_connection` still run by the `finally` block.  When no connection
is obtained the generator `return`s early, yielding nothing: no cursor was
created, so none is left open (`cursorClosed` records "no dangling
cursor"). -/
def execute_query (poolInitialized connAvailable : Bool)
    (queryOutcome : Except PyErr (List Batch)) : ExecOutcome :=
  if !poolInitialized || !connAvailable then
    ⟨[], none, false, false, true⟩
  else
    match queryOutcome with
    | .ok bs => ⟨bs, none, true, true, true⟩
    | .error e =>
      if e.kind = .operational then ⟨[], none, true, true, true⟩
      else ⟨[], some e, true, true, true⟩

/-!
## rag.py — query construction
-/

/-- The `metadata_query` f-string of `fetch_table_data` in
`OrganizationSystemChat.ingest_database`, with the caller's `table`
interpolated verbatim (source whitespace preserved). -/
def metadata_query (table : String) : String :=
  "\n                SELECT column_name, data_type\n                FROM information_schema.columns\n                WHERE table_name = \x27" ++ table ++ "\x27;\n                "

/-- The `data_query` f-string of `fetch_table_data`:
`f"SELECT * FROM {table}"`. -/
def data_query (table : String) : String := "SELECT * FROM " ++ table

/-- The `relationship_query` literal of `fetch_relationships`
(source text verbatim, including the `ccu.ss` column reference). -/
def relationship_query : String :=
  "\n                SELECT \n                    tc.table_name, kcu.column_name, \n                    ccu.ss AS foreign_table_name,\n                    ccu.column_name AS foreign_column_name \n                FROM \n                    information_schema.table_constraints AS tc \n                    JOIN information_schema.key_column_usage AS kcu\n                      ON tc.constraint_name = kcu.constraint_name\n                    JOIN information_schema.constraint_column_usage AS ccu \n                      ON ccu.constraint_name = tc.constraint_name\n                WHERE constraint_type = \x27FOREIGN KEY\x27;\n                "

/-- The `data_query` f-string of `OrganizationSystemChat.generate_insights`:
`f"SELECT * FROM {table} LIMIT 5"`. -/
def insight_query (table : String) : String :=
  "SELECT * FROM " ++ table ++ " LIMIT 5"

/-- The columns of `information_schema.constraint_column_usage` as defined
by PostgreSQL (and the SQL standard); reference fact used to check the
relationship query's column references. -/
def constraint_column_usage_columns : List String :=
  ["table_catalog", "table_schema", "table_name", "column_name",
   "constraint_catalog", "constraint_schema", "constraint_name"]

/-!
## rag.py — ingestion
-/

/-- The relational layer as `rag.py` observes it through
`list(execute_query(q))` / iteration: a map from the query text to either
the yielded batches (`.ok`, possibly `[]` — in particular when
`execute_query` swallowed an `OperationalError` or obtained no connection)
or an exception that escapes `execute_query` (`.error`, a non-operational
error such as `ProgrammingError`). -/
def Db := String → Except PyErr (List Batch)

/-- The body of the nested task `fetch_table_data(table)` in
`ingest_database`: runs the metadata query, emits one schema chunk when the
result is non-empty (`column[0]`/`column[1]` are the two selected columns),
then streams the row query and emits one chunk per row.  An exception from
either query makes the whole task fail (`.error`); chunks appended before
the failure are never consumed by the caller on that path, so they are
dropped here. -/
def fetch_table_data (db : Db) (table : String) : Except PyErr (List Document) :=
  match db (metadata_query table) with
  | .error e => .error e
  | .ok metadata_result =>
    let metaChunks : List Document :=
      if metadata_result.isEmpty then []
      else [⟨"Table: " ++ table ++ "\nColumns:\n" ++
        String.intercalate "\n" (metadata_result.flatten.map
          (fun column => column.getD 0 "" ++ " (" ++ column.getD 1 "" ++ ")")), []⟩]
    match db (data_query table) with
    | .error e => .error e
    | .ok batches =>
      .ok (metaChunks ++ batches.flatten.map
        (fun row => ⟨"Table: " ++ table ++ "\n" ++ String.intercalate " | " row, []⟩))

/-- The body of the nested task `fetch_relationships()` in
`ingest_database`: runs the foreign-key query once (globally, not per
table) and, when the result is non-empty, emits a single chunk of
`"{row[0]} ({row[1]}) -> {row[2]} ({row[3]})"` lines. -/
def fetch_relationships (db : Db) : Except PyErr (List Document) :=
  match db relationship_query with
  | .error e => .error e
  | .ok relationship_result =>
    .ok (if relationship_result.isEmpty then []
      else [⟨"Relationships among tables:\n" ++
        String.intercalate "\n" (relationship_result.flatten.map
          (fun row => row.getD 0 "" ++ " (" ++ row.getD 1 "" ++ ") -> " ++
            row.getD 2 "" ++ " (" ++ row.getD 3 "" ++ ")")), []⟩])

/-- The orchestrator's mutable state: the fields set in
`OrganizationSystemChat.__init__` and mutated by ingestion and `clear`.
The vector store, retriever and chain are each represented by the chunk
batch they were built from (they are rebuilt together from one batch). -/
structure OrganizationSystemChat where
  vector_store : Option (List Document)
  retriever : Option (List Document)
  chain : Option (List Document)
  context : String
deriving DecidableEq, Repr

/-- `OrganizationSystemChat.__init__`: all three components unset, empty
fallback context. -/
def OrganizationSystemChat.init : OrganizationSystemChat := ⟨none, none, none, ""⟩

/-- `OrganizationSystemChat._initialize_vector_store`: on success of
`Chroma.from_documents` (the call that contacts the embedding backend,
modelled by `buildOutcome`) the store, retriever and chain are all rebuilt
from `chunks`; on failure the `except` clause leaves every field as it was
and returns the error string.  The returned `Option String` is the
function's Python return value (`None` on success). -/
def initialize_vector_store (st : OrganizationSystemChat) (chunks : List Document)
    (buildOutcome : Except PyErr Unit) : OrganizationSystemChat × Option String :=
  match buildOutcome with
  | .ok _ => (⟨some chunks, some chunks, some chunks, st.context⟩, none)
  | .error e => (st, some ("Error initializing vector store: " ++ e.msg))

/-- `OrganizationSystemChat.ingest_document`.  `chunksResult` is the
combined outcome of `PyPDFLoader.load`, the splitter and
`filter_complex_metadata` (all external library calls): the chunk list, or
the exception one of them raises.  On an exception the `except` clause
returns the error string; otherwise the helper is awaited and its return
value is discarded (`await self._initialize_vector_store(chunks)` as a bare
statement), so the method returns `None` even when the rebuild failed.
`self.context` is never touched on this path. -/
def ingest_document (st : OrganizationSystemChat)
    (chunksResult : Except PyErr (List Document))
    (buildOutcome : Except PyErr Unit) : OrganizationSystemChat × Option String :=
  match chunksResult with
  | .error e => (st, some ("Error during document ingestion: " ++ e.msg))
  | .ok chunks => ((initialize_vector_store st chunks buildOutcome).1, none)

/-- The task list built by `ingest_database`: one `fetch_table_data` task
per table (in list order) followed by the single `fetch_relationships`
task, the order in which `asyncio.gather` schedules them.  The task bodies
contain no `await`, so each runs to completion when first scheduled, in
this order. -/
def taskResults (db : Db) (tables : List String) : List (Except PyErr (List Document)) :=
  tables.map (fetch_table_data db) ++ [fetch_relationships db]

/-- The first exception among the gathered tasks, in schedule order — the
exception `await asyncio.gather(*tasks)` (default
`return_exceptions=False`) raises, if any. -/
def firstError : List (Except PyErr (List Document)) → Option PyErr
  | [] => none
  | .error e :: _ => some e
  | .ok _ :: rest => firstError rest

/-- The concatenation, in schedule order, of the chunks the successful
tasks appended to the shared `all_chunks` list. -/
def okChunks : List (Except PyErr (List Document)) → List Document
  | [] => []
  | .ok cs :: rest => cs ++ okChunks rest
  | .error _ :: rest => okChunks rest

/-- `OrganizationSystemChat.ingest_database`.  If any task raises, the
exception propagates out of `asyncio.gather` into the `except` clause: the
method returns the error string and neither `self.context` nor the vector
store is touched — the chunks of the successful tasks are discarded with
the local `all_chunks`.  Only when every task succeeds is `self.context`
set to the newline-joined chunk contents and the store rebuilt from
`all_chunks`; the helper's return value is again discarded and the method
returns `None`. -/
def ingest_database (st : OrganizationSystemChat) (db : Db) (tables : List String)
    (buildOutcome : Except PyErr Unit) : OrganizationSystemChat × Option String :=
  match firstError (taskResults db tables) with
  | some e => (st, some ("Error during database ingestion: " ++ e.msg))
  | none =>
    let all_chunks := okChunks (taskResults db tables)
    let st1 : OrganizationSystemChat :=
      ⟨st.vector_store, st.retriever, st.chain,
        String.intercalate "\n" (all_chunks.map Document.page_content)⟩
    ((initialize_vector_store st1 all_chunks buildOutcome).1, none)

/-!
## rag.py — querying
-/

/-- The fixed reply of `_format_response` for insight-style responses. -/
def sampleDataReply : String :=
  "I have identified some sample data. Please specify if you need more details."

/-- `OrganizationSystemChat._format_response` on a string response:
strip, split on newlines, and if the first line contains the literal
`"Sample data from"` (Python `in`, substring containment) return the fixed
summary sentence, else return that first line. -/
def format_response (response : String) : String :=
  let response_lines := splitLinesChars (pyStripChars response.data)
  let first : String := ⟨response_lines.headD []⟩
  if containsSub "Sample data from" first then sampleDataReply else first

/-- The guidance string `ask` returns when no chain is initialized. -/
def notReadyReply : String := "Please, add a document or connect to a database first."

/-- The body of the `try` block of `OrganizationSystemChat.ask`:
retrieve (`get_relevant_documents`, which may raise), join the retrieved
page contents with spaces, fall back to `self.context` when the joined
context strips to empty, invoke the chain (which may raise) on the chosen
context and the question, and format the response.  The result is the
formatted answer or the first exception raised. -/
def askBody (st : OrganizationSystemChat)
    (get_relevant_documents : String → Except PyErr (List Document))
    (chain_invoke : String → String → Except PyErr String)
    (query : String) : Except PyErr String :=
  match get_relevant_documents query with
  | .error e => .error e
  | .ok context_docs =>
    let joined := String.intercalate " " (context_docs.map Document.page_content)
    let context := if pyStrip joined = "" then st.context else joined
    match chain_invoke context query with
    | .error e => .error e
    | .ok response => .ok (format_response response)

/-- `OrganizationSystemChat.ask`: with no chain, return the fixed guidance;
otherwise run the `try` body, converting any exception into the
`"Error during query processing: ..."` message.  `Except.ok` is the only
constructor ever returned: an `.error` result would mean an exception
propagating to the caller, which the catch-all `except` prevents. -/
def ask (st : OrganizationSystemChat)
    (get_relevant_documents : String → Except PyErr (List Document))
    (chain_invoke : String → String → Except PyErr String)
    (query : String) : Except PyErr String :=
  match st.chain with
  | none => .ok notReadyReply
  | some _ =>
    match askBody st get_relevant_documents chain_invoke query with
    | .ok r => .ok r
    | .error e => .ok ("Error during query processing: " ++ e.msg)

/-- The loop of `OrganizationSystemChat.generate_insights`: for each table
run the sample query and, when the sample is non-empty, record
`f"Sample data from {table}: {data_sample}"`, with Python's rendering of
the batch list (`repr`) supplied as `pyRepr`.  An exception from any query
aborts the loop. -/
def generate_insights_loop (db : Db) (pyRepr : List Batch → String) :
    List String → Except PyErr (List String)
  | [] => .ok []
  | table :: rest =>
    match db (insight_query table) with
    | .error e => .error e
    | .ok data_sample =>
      match generate_insights_loop db pyRepr rest with
      | .error e => .error e
      | .ok tail =>
        .ok (if data_sample.isEmpty then tail
          else ("Sample data from " ++ table ++ ": " ++ pyRepr data_sample) :: tail)

/-- `OrganizationSystemChat.generate_insights`: join the insights with
spaces and format, or return the error message when a query raised (the
`query` argument is accepted and ignored, as in the source). -/
def generate_insights (db : Db) (pyRepr : List Batch → String)
    (tables : List String) (_query : String) : String :=
  match generate_insights_loop db pyRepr tables with
  | .ok insights => format_response (String.intercalate " " insights)
  | .error e => "Error generating insights: " ++ e.msg

/-- `OrganizationSystemChat.clear`: unset the store, retriever and chain
and reset the fallback context, regardless of the previous state. -/
def clear (_st : OrganizationSystemChat) : OrganizationSystemChat :=
  ⟨none, none, none, ""⟩

/-!
## Concrete database behaviours used in counterexamples and witnesses
-/

/-- A database on which every query of table `users` succeeds (one
`id (integer)` column, one row) while the row query of table `orders`
raises a non-operational error; every other query yields no batches. -/
def dbUsersOkOrdersFail : Db := fun q =>
  if q = data_query "orders" then .error ⟨.other, "relation orders is corrupted"⟩
  else if q = metadata_query "users" then .ok [[["id", "integer"]]]
  else if q = data_query "users" then .ok [[["1"]]]
  else .ok []

/-- A database on which the metadata query of table `t` raises. -/
def dbMetaFailT : Db := fun q =>
  if q = metadata_query "t" then .error ⟨.other, "boom"⟩ else .ok []

/-- A database on which every query yields no batches. -/
def dbAllEmpty : Db := fun _ => .ok []

/-- A malicious caller-supplied "table name" carrying an SQL injection. -/
def injectionString : String := "users; DROP TABLE accounts"

/-- A database that raises exactly on the row query built from
`injectionString`, to witness that that query text is actually issued. -/
def dbInjectionProbe : Db := fun q =>
  if q = data_query injectionString then .error ⟨.other, "relation accounts was dropped"⟩
  else .ok []

/-- A database that raises on the metadata query and on the insight query
built from `injectionString`. -/
def dbMetaAndInsightFail : Db := fun q =>
  if q = metadata_query injectionString then .error ⟨.other, "mfail"⟩
  else if q = insight_query injectionString then .error ⟨.other, "ifail"⟩
  else .ok []

/-- A database on which the foreign-key relationship query raises (as a
real PostgreSQL server does on the source's `ccu.ss` column reference)
while every other query yields no batches. -/
def dbRelationshipFail : Db := fun q =>
  if q = relationship_query then .error ⟨.other, "column ccu.ss does not exist"⟩
  else .ok []

/-!
## Theorems
-/

/-- C1 (counterexample): with tables `users` and `orders` where the fetch
for `orders` raises, the fetch for `users` does produce chunks, yet
`ingest_database` returns the error string with the state unchanged: the
vector store stays `none`, so the chunks of the successful table are NOT
included in any batch passed to the vector-store rebuild — the whole batch
is discarded, refuting the claim that successful tasks' chunks still reach
the final ingestion batch. -/
theorem c1_counterexample :
    fetch_table_data dbUsersOkOrdersFail "users" =
      .ok [⟨"Table: users\nColumns:\nid (integer)", []⟩, ⟨"Table: users\n1", []⟩] ∧
    ingest_database .init dbUsersOkOrdersFail ["users", "orders"] (.ok ()) =
      (.init, some "Error during database ingestion: relation orders is corrupted") ∧
    (ingest_database .init dbUsersOkOrdersFail ["users", "orders"] (.ok ())).1.vector_store
      = none := by
  decide

/-- C1 (amended): a failure in any fetch task aborts the whole ingestion:
`asyncio.gather` re-raises the first task exception, the `except` clause
returns it as an error message, and no chunks — including those of the
successful tasks — are passed to the vector-store rebuild (the state is
unchanged).  Only when every task succeeds is the store rebuilt from all
tasks' chunks. -/
theorem c1_failure_aborts_whole_ingestion :
    ∀ (st : OrganizationSystemChat) (db : Db) (tables : List String)
      (b : Except PyErr Unit),
    (∀ e, firstError (taskResults db tables) = some e →
      ingest_database st db tables b =
        (st, some ("Error during database ingestion: " ++ e.msg))) ∧
    (firstError (taskResults db tables) = none → b = .ok () →
      (ingest_database st db tables b).1.vector_store =
        some (okChunks (taskResults db tables))) := by
  intro st db tables b
  constructor
  · intro e h
    simp [ingest_database, h]
  · intro h hb
    subst hb
    simp [ingest_database, h, initialize_vector_store]

/-- C1 (witness): the amended theorem applied to concrete databases — a
failing metadata fetch aborts ingestion with the error message, and a
fully successful ingestion rebuilds the store from the gathered chunks. -/
theorem c1_witness :
    ingest_database .init dbMetaFailT ["t"] (.ok ()) =
      (.init, some "Error during database ingestion: boom") ∧
    (ingest_database .init dbAllEmpty ["t"] (.ok ())).1.vector_store =
      some (okChunks (taskResults dbAllEmpty ["t"])) := by
  refine ⟨((c1_failure_aborts_whole_ingestion _ _ _ _).1 ⟨.other, "boom"⟩
    (by decide)).trans (by decide), ?_⟩
  exact (c1_failure_aborts_whole_ingestion _ _ _ _).2 (by decide) rfl

/-- C2: on an orchestrator whose chain is unset (fresh construction or
after `clear`), `ask` returns the fixed guidance string, and returns it
normally — `Except.ok` — so no exception reaches the caller. -/
theorem c2_ask_fresh_returns_guidance :
    ∀ (st : OrganizationSystemChat)
      (g : String → Except PyErr (List Document))
      (i : String → String → Except PyErr String) (q : String),
    st.chain = none → ask st g i q = .ok notReadyReply := by
  intro st g i q h
  simp [ask, h]

/-- C2 (witness): the theorem applied to the freshly constructed state. -/
theorem c2_witness :
    ask .init (fun _ => .ok []) (fun _ _ => .ok "") "hello" = .ok notReadyReply :=
  c2_ask_fresh_returns_guidance _ _ _ _ rfl

/-- C3 (counterexample): the ingestion core interpolates the caller's
string into query text with no allow-list validation: for the injection
string the constructed row and insight queries embed it verbatim, and
`ingest_database` actually issues that query against the database (the
probe database raises exactly on it, and the error surfaces), refuting the
claim that identifiers are first validated against the known-table allow
list. -/
theorem c3_counterexample :
    data_query injectionString = "SELECT * FROM users; DROP TABLE accounts" ∧
    insight_query injectionString = "SELECT * FROM users; DROP TABLE accounts LIMIT 5" ∧
    (ingest_database .init dbInjectionProbe [injectionString] (.ok ())).2 =
      some "Error during database ingestion: relation accounts was dropped" := by
  decide

/-- C3 (amended): no validation is performed by the core: for every
caller-supplied string — catalogued or not — the row and insight queries
are built by verbatim string interpolation, and the per-table fetch and
the insight generation consult the database at exactly those query texts
(so an arbitrary string reaches the relational layer unescaped). -/
theorem c3_no_validation :
    ∀ (table : String),
    data_query table = "SELECT * FROM " ++ table ∧
    insight_query table = "SELECT * FROM " ++ table ++ " LIMIT 5" ∧
    (∀ (db : Db) (e : PyErr), db (metadata_query table) = .error e →
      fetch_table_data db table = .error e) ∧
    (∀ (db : Db) (pyRepr : List Batch → String) (e : PyErr) (question : String),
      db (insight_query table) = .error e →
      generate_insights db pyRepr [table] question =
        "Error generating insights: " ++ e.msg) := by
  intro table
  refine ⟨rfl, rfl, ?_, ?_⟩
  · intro db e h
    simp [fetch_table_data, h]
  · intro db pyRepr e question h
    simp [generate_insights, generate_insights_loop, h]

/-- C3 (witness): the amended theorem applied to the injection string and
a database that raises on the queries built from it. -/
theorem c3_witness :
    fetch_table_data dbMetaAndInsightFail injectionString = .error ⟨.other, "mfail"⟩ ∧
    generate_insights dbMetaAndInsightFail (fun _ => "") [injectionString] "q" =
      "Error generating insights: ifail" := by
  refine ⟨(c3_no_validation injectionString).2.2.1 _ ⟨.other, "mfail"⟩ (by decide), ?_⟩
  exact ((c3_no_validation injectionString).2.2.2 _ _ ⟨.other, "ifail"⟩ "q"
    (by decide)).trans (by decide)

/-- C4 (counterexample): on a response whose first line contains the
marker `"Sample data from"` without beginning with it, `_format_response`
returns the fixed summary sentence, not the first line as the claim
("exactly when the first line begins with the marker") requires. -/
theorem c4_counterexample :
    pyStartsWith "Note: Sample data from users" "Sample data from" = false ∧
    firstLine (pyStrip "Note: Sample data from users\nsecond line") =
      "Note: Sample data from users" ∧
    format_response "Note: Sample data from users\nsecond line" = sampleDataReply ∧
    sampleDataReply ≠ "Note: Sample data from users" := by
  decide

/-- C4 (amended): `_format_response` returns the fixed summary sentence
exactly when the first line of the stripped response CONTAINS the literal
marker `"Sample data from"` (Python `in`, substring containment, not a
prefix test); otherwise it returns that first line, discarding all
subsequent lines. -/
theorem c4_marker_containment :
    ∀ (response : String),
    (containsSub "Sample data from" (firstLine (pyStrip response)) = true →
      format_response response = sampleDataReply) ∧
    (containsSub "Sample data from" (firstLine (pyStrip response)) = false →
      format_response response = firstLine (pyStrip response)) := by
  intro response
  constructor
  · intro h
    show (if containsSub "Sample data from" (firstLine (pyStrip response)) = true
      then sampleDataReply else firstLine (pyStrip response)) = sampleDataReply
    rw [if_pos h]
  · intro h
    show (if containsSub "Sample data from" (firstLine (pyStrip response)) = true
      then sampleDataReply else firstLine (pyStrip response)) = firstLine (pyStrip response)
    rw [if_neg (by simp [h])]

/-- C4 (witness): the amended theorem applied to a marker-bearing response
and to an ordinary two-line response. -/
theorem c4_witness :
    format_response "Sample data from users: rows" = sampleDataReply ∧
    format_response "hello\nworld" = "hello" := by
  refine ⟨(c4_marker_containment _).1 (by decide), ?_⟩
  exact ((c4_marker_containment _).2 (by decide)).trans (by decide)

/-- C5 (counterexample): document ingestion succeeds (the store is rebuilt
from the chunk) yet `self.context` is left at its initial empty value, not
at the concatenation of the ingested chunk contents — `ingest_document`
never touches the fallback context, refuting the claim for the document
ingestion path. -/
theorem c5_counterexample :
    ingest_document .init (.ok [⟨"The sky is blue.", []⟩]) (.ok ()) =
      (⟨some [⟨"The sky is blue.", []⟩], some [⟨"The sky is blue.", []⟩],
        some [⟨"The sky is blue.", []⟩], ""⟩, none) ∧
    ("" : String) ≠ "The sky is blue." := by
  decide

/-- C5 (amended): only database ingestion retains the newline-joined
concatenation of the ingested chunk contents as the fallback context;
document ingestion leaves the fallback context unchanged; and on `ask`,
when retrieval returns no chunks (so the joined context strips to empty),
the stored fallback context is exactly the context handed to the chain
invocation. -/
theorem c5_fallback_context :
    (∀ (st : OrganizationSystemChat) (db : Db) (tables : List String)
       (b : Except PyErr Unit),
      firstError (taskResults db tables) = none →
      (ingest_database st db tables b).1.context =
        String.intercalate "\n"
          ((okChunks (taskResults db tables)).map Document.page_content)) ∧
    (∀ (st : OrganizationSystemChat) (cr : Except PyErr (List Document))
       (b : Except PyErr Unit),
      (ingest_document st cr b).1.context = st.context) ∧
    (∀ (st : OrganizationSystemChat) (g : String → Except PyErr (List Document))
       (i : String → String → Except PyErr String) (q : String) (d : List Document),
      st.chain = some d → g q = .ok [] →
      ask st g i q = (match i st.context q with
        | .ok r => .ok (format_response r)
        | .error e => .ok ("Error during query processing: " ++ e.msg))) := by
  refine ⟨?_, ?_, ?_⟩
  · intro st db tables b h
    cases b with
    | ok u => simp [ingest_database, h, initialize_vector_store]
    | error e => simp [ingest_database, h, initialize_vector_store]
  · intro st cr b
    cases cr with
    | error e => rfl
    | ok chunks =>
      cases b with
      | ok u => rfl
      | error e => rfl
  · intro st g i q d hc hg
    have hcond : pyStrip (String.intercalate " "
        (List.map Document.page_content ([] : List Document))) = "" := by decide
    cases hi : i st.context q with
    | ok r =>
      unfold ask askBody
      rw [hc, hg]
      dsimp only
      rw [if_pos hcond, hi]
    | error e =>
      unfold ask askBody
      rw [hc, hg]
      dsimp only
      rw [if_pos hcond, hi]

/-- C5 (witness): the amended theorem applied to a successful (empty)
database ingestion and to an `ask` whose retrieval returns no chunks on a
state carrying the fallback context `"FALLBACK"`. -/
theorem c5_witness :
    (ingest_database .init dbAllEmpty ["t"] (.ok ())).1.context =
      String.intercalate "\n"
        ((okChunks (taskResults dbAllEmpty ["t"])).map Document.page_content) ∧
    ask ⟨none, none, some [], "FALLBACK"⟩ (fun _ => .ok []) (fun c _ => .ok c) "q" =
      .ok "FALLBACK" := by
  refine ⟨c5_fallback_context.1 _ _ _ _ (by decide), ?_⟩
  exact (c5_fallback_context.2.2 _ _ _ "q" [] rfl rfl).trans (by decide)

/-- C6 (counterexample): with a previously built index in place and a
failing vector-store rebuild, `ingest_document` leaves the whole prior
state intact but returns `none` — the Python method returns `None`, so the
failure is NOT surfaced to the caller as an error result, refuting that
half of the claim. -/
theorem c6_counterexample :
    ingest_document
      ⟨some [⟨"old", []⟩], some [⟨"old", []⟩], some [⟨"old", []⟩], "old"⟩
      (.ok [⟨"new", []⟩]) (.error ⟨.other, "embedding backend unreachable"⟩) =
      (⟨some [⟨"old", []⟩], some [⟨"old", []⟩], some [⟨"old", []⟩], "old"⟩, none) := by
  decide

/-- C6 (amended): when the vector-store rebuild raises, the helper
`_initialize_vector_store` catches the exception, leaves every state field
(previous store, retriever, chain, context) exactly as it was, and returns
the error string — but `ingest_document` discards that return value and
returns `None`, so no error result reaches the ingestion caller. -/
theorem c6_rebuild_failure_swallowed :
    ∀ (st : OrganizationSystemChat) (chunks : List Document) (e : PyErr),
    initialize_vector_store st chunks (.error e) =
      (st, some ("Error initializing vector store: " ++ e.msg)) ∧
    ingest_document st (.ok chunks) (.error e) = (st, none) := by
  intro st chunks e
  exact ⟨rfl, rfl⟩

/-- C7: on an orchestrator with an initialized chain, `ask` always
returns an `Except.ok` answer — every exception raised by retrieval or by
the chain invocation (and any formatting) is converted by the `except`
clause into a text message, and never propagates to the caller. -/
theorem c7_ask_never_propagates :
    ∀ (st : OrganizationSystemChat) (g : String → Except PyErr (List Document))
      (i : String → String → Except PyErr String) (q : String),
    st.chain.isSome = true → ∃ answer, ask st g i q = .ok answer := by
  intro st g i q _h
  obtain ⟨vs, r, ch, ctx⟩ := st
  cases ch with
  | none => exact ⟨notReadyReply, rfl⟩
  | some d =>
    cases hb : askBody ⟨vs, r, some d, ctx⟩ g i q with
    | ok s => exact ⟨s, by simp [ask, hb]⟩
    | error e => exact ⟨"Error during query processing: " ++ e.msg, by simp [ask, hb]⟩

/-- C7 (witness): the theorem applied to a ready state whose retriever
raises: the result is still an ordinary `Except.ok` answer. -/
theorem c7_witness :
    ∃ answer, ask ⟨none, none, some [], ""⟩
      (fun _ => .error ⟨.other, "retriever backend down"⟩)
      (fun _ _ => .ok "ignored") "q" = .ok answer :=
  c7_ask_never_propagates _ _ _ _ rfl

/-- C8 (code bug): the foreign-key relationship query of
`fetch_relationships` references the column `ccu.ss` of
`information_schema.constraint_column_usage` — aliased
`AS foreign_table_name`, showing the intended column `table_name` — but
`ss` is not a column of that view, so on a real server the query raises
and, instead of the claimed single relationship chunk, the relationship
task fails and the whole ingestion aborts with the error. -/
theorem c8_relationship_query_bug :
    containsSub "ccu.ss" relationship_query = true ∧
    containsSub "AS foreign_table_name" relationship_query = true ∧
    constraint_column_usage_columns.contains "ss" = false ∧
    constraint_column_usage_columns.contains "table_name" = true ∧
    fetch_relationships dbRelationshipFail =
      .error ⟨.other, "column ccu.ss does not exist"⟩ ∧
    ingest_database .init dbRelationshipFail ["users", "orders"] (.ok ()) =
      (.init, some "Error during database ingestion: column ccu.ss does not exist") := by
  decide

/-- C9: `clear` is idempotent — a second consecutive call leaves the state
(vector store, retriever, chain, fallback context) unchanged — and after
clearing, every component is unset, so `ask` takes the not-initialized
branch and returns the fixed guidance. -/
theorem c9_clear_idempotent :
    ∀ (st : OrganizationSystemChat) (g : String → Except PyErr (List Document))
      (i : String → String → Except PyErr String) (q : String),
    clear (clear st) = clear st ∧
    (clear st).vector_store = none ∧ (clear st).retriever = none ∧
    (clear st).chain = none ∧ (clear st).context = "" ∧
    ask (clear st) g i q = .ok notReadyReply := by
  intro st g i q
  exact ⟨rfl, rfl, rfl, rfl, rfl, rfl⟩

/-- C10 (counterexample): a query failing with a non-operational error
(e.g. psycopg2's `ProgrammingError` on invalid SQL) escapes
`execute_query` to its caller, refuting the claim that it never raises. -/
theorem c10_counterexample :
    (execute_query true true (.error ⟨.other, "syntax error at or near DROP"⟩)).raised =
      some ⟨.other, "syntax error at or near DROP"⟩ ∧
    some (⟨ErrKind.other, "syntax error at or near DROP"⟩ : PyErr) ≠
      (none : Option PyErr) := by
  decide

/-- C10 (amended): `execute_query` yields zero batches and raises nothing
when the pool is uninitialized, when no connection can be obtained, or
when the query fails with an `OperationalError` (the only kind it
catches); a non-operational error propagates to the caller; and in every
case no cursor is left open and a connection, once obtained, is released
back to the pool. -/
theorem c10_execute_query_error_policy :
    ∀ (p c : Bool) (out : Except PyErr (List Batch)),
    (execute_query p c out).cursorClosed = true ∧
    ((execute_query p c out).connObtained = true →
      (execute_query p c out).connReleased = true) ∧
    (p = false ∨ c = false →
      execute_query p c out = ⟨[], none, false, false, true⟩) ∧
    (∀ e, out = .error e → e.kind = .operational →
      (execute_query p c out).batches = [] ∧ (execute_query p c out).raised = none) ∧
    (∀ e, out = .error e → e.kind = .other → p = true → c = true →
      (execute_query p c out).raised = some e) := by
  intro p c out
  refine ⟨?_, ?_, ?_, ?_, ?_⟩
  · unfold execute_query
    split
    · rfl
    · split
      · rfl
      · split <;> rfl
  · unfold execute_query
    split
    · intro h
      exact h
    · split
      · intro _
        rfl
      · split <;> intro _ <;> rfl
  · intro hpc
    unfold execute_query
    split
    · rfl
    · exfalso
      rcases hpc with h | h <;> subst h <;> simp_all
  · intro e he hk
    subst he
    unfold execute_query
    split
    · exact ⟨rfl, rfl⟩
    · simp [hk]
  · intro e he hk hp hc
    subst he
    subst hp
    subst hc
    simp [execute_query, hk]

/-- C10 (witness): the amended theorem applied to the three concrete
failure modes — uninitialized pool, operational query failure, and a
non-operational error that propagates. -/
theorem c10_witness :
    execute_query false true (.ok [[["r"]]]) = ⟨[], none, false, false, true⟩ ∧
    (execute_query true true (.error ⟨.operational, "server closed the connection"⟩)).batches
      = [] ∧
    (execute_query true true (.error ⟨.operational, "server closed the connection"⟩)).raised
      = none ∧
    (execute_query true true (.error ⟨.other, "syntax error"⟩)).raised =
      some ⟨.other, "syntax error"⟩ := by
  refine ⟨(c10_execute_query_error_policy false true _).2.2.1 (Or.inl rfl), ?_, ?_, ?_⟩
  · exact ((c10_execute_query_error_policy true true _).2.2.2.1 _ rfl rfl).1
  · exact ((c10_execute_query_error_policy true true _).2.2.2.1 _ rfl rfl).2
  · exact (c10_execute_query_error_policy true true _).2.2.2.2 _ rfl rfl rfl rfl

end PDFDB
